import Mathlib

/-!
Verification of the `digitalocean` crate's request type-state engine,
shallowly embedded in Lean 4. Source files: `src/lib.rs` and
`src/api/volume_action.rs`. The `request` module (the `Request` struct and
its `new` / `set_body` / `transmute` / `url_mut` primitives), the `method`
module, and `Volume::get` are not in the provided sources; those are
modelled from the spec (§4.2 documents their contracts precisely) and are
marked as such. The `url` crate is an external collaborator (§6); its
behavior on absolute http(s) URLs is modelled by `Url` / `Url.parse` /
`Url.pushSegment` below.
-/

/-- A JSON value, as built by the `json!` macro in `volume_action.rs`:
only strings, numbers (all numbers used are `usize`) and objects with
fields kept in source order occur. -/
inductive JVal where
  | str : String → JVal
  | num : Nat → JVal
  | obj : List (String × JVal) → JVal
deriving Repr

/-- Modelled from the spec: the `url` crate's parsed URL (external
collaborator, §6), reduced to the parts the claims mention: scheme, host,
the list of path segments, and the cannot-be-a-base flag that makes
`path_segments_mut()` return `Err`. Absolute http(s) URLs with a host are
never cannot-be-a-base. -/
structure Url where
  scheme : String
  host : String
  path : List String
  cannotBeABase : Bool
deriving Repr, DecidableEq

/-- Split a character list at every occurrence of `sep`. -/
def splitOnChar (sep : Char) : List Char → List (List Char)
  | [] => [[]]
  | c :: rest =>
    match splitOnChar sep rest with
    | [] => if c = sep then [[], []] else [[c]]
    | h :: t => if c = sep then [] :: h :: t else (c :: h) :: t

/-- Take characters up to the first occurrence of `c`, returning the part
before and the remainder (which starts with `c` when present). -/
def takeUntil (c : Char) : List Char → (List Char × List Char)
  | [] => ([], [])
  | x :: xs =>
    if x = c then ([], x :: xs)
    else
      let p := takeUntil c xs
      (x :: p.1, p.2)

/-- Modelled from the spec: `url::Url::parse` (external collaborator, §6)
restricted to absolute http(s) URLs, the only kind the crate constructs.
The scheme is read up to `:`, `//` must follow, the authority is the part
up to the next `/`, and the rest splits into path segments. A special
scheme with a non-empty host yields a hierarchical (not cannot-be-a-base)
URL. -/
def Url.parse (s : String) : Option Url :=
  let p := takeUntil ':' s.data
  match p.2 with
  | ':' :: '/' :: '/' :: hostPath =>
    let scheme := String.mk p.1
    if scheme = "https" || scheme = "http" then
      match splitOnChar '/' hostPath with
      | [] => none
      | host :: segs =>
        if host.isEmpty then none
        else
          some { scheme := scheme
                 host := String.mk host
                 path := segs.map String.mk
                 cannotBeABase := false }
    else none
  | _ => none

/-- Modelled from the spec: `Url::path_segments_mut(..).push(seg)` — the
append of one path segment, which fails (the `expect(STATIC_URL_ERROR)`
branch, a panic) exactly when the URL is cannot-be-a-base. -/
def Url.pushSegment (u : Url) (seg : String) : Option Url :=
  if u.cannotBeABase then none
  else some { u with path := u.path ++ [seg] }

/-- The literal passed to `Url::parse` in `lib.rs` to build `ROOT_URL`. -/
def rootUrlString : String := "https://api.digitalocean.com/v2"

/-- The parsed root URL (`ROOT_URL` in `lib.rs`); the theorem for the
root-URL safety claim proves `Url.parse rootUrlString = some ROOT_URL`. -/
def ROOT_URL : Url :=
  { scheme := "https"
    host := "api.digitalocean.com"
    path := ["v2"]
    cannotBeABase := false }

/-- `const VOLUMES_SEGMENT` in `volume_action.rs`. -/
def VOLUMES_SEGMENT : String := "volumes"

/-- `const VOLUME_ACTIONS_SEGMENT` in `volume_action.rs`. -/
def VOLUME_ACTIONS_SEGMENT : String := "actions"

/-- The closed set of phantom method markers (`method` module, modelled
from the spec §4.1: List | Get | Create | Update | Delete). -/
inductive Method where
  | list | get | create | update | delete
deriving Repr, DecidableEq

/-- The phantom response-value markers the volume-action surface uses:
`Volume`, `Action`, and `Vec<Action>`. -/
inductive Value where
  | volume | action | vecAction
deriving Repr, DecidableEq

/-- Modelled from the spec: the `Request<Method, Value>` builder (§3,
§4.2; the `request` module is not in the provided sources): a target URL,
an optional JSON body, and two phantom tags carried as type indices with
no runtime data. -/
structure Request (m : Method) (v : Value) where
  url : Url
  body : Option JVal
deriving Repr

/-- Modelled from the spec: `Request::new(url)` — a Request with the given
URL and an empty body (§4.2). -/
def Request.new (u : Url) : Request m v := ⟨u, none⟩

/-- Modelled from the spec: `Request::set_body(payload)` — replaces any
existing body with the new payload; at most one body per Request; last
write wins (§4.2). -/
def Request.set_body (r : Request m v) (payload : JVal) : Request m v :=
  { r with body := some payload }

/-- Modelled from the spec: `Request::transmute()` — a zero-cost
reinterpretation changing only the phantom Method/Value parameters while
preserving URL and body (§4.2). -/
def Request.transmute (r : Request m v) : Request m' v' := ⟨r.url, r.body⟩

/-- `Volume::attach(volume_name, droplet)` from `volume_action.rs`:
clone `ROOT_URL`, push `"volumes"` (the `expect` is the `none` case),
build a new Request and set the attach body. -/
def Volume.attach (volume_name : String) (droplet : Nat) :
    Option (Request .create .action) :=
  match ROOT_URL.pushSegment VOLUMES_SEGMENT with
  | none => none
  | some url =>
    some ((Request.new url).set_body (JVal.obj
      [("type", JVal.str "attach"),
       ("volume_name", JVal.str volume_name),
       ("droplet_id", JVal.num droplet)]))

/-- `Volume::detach(volume_name, droplet)` from `volume_action.rs`. -/
def Volume.detach (volume_name : String) (droplet : Nat) :
    Option (Request .create .action) :=
  match ROOT_URL.pushSegment VOLUMES_SEGMENT with
  | none => none
  | some url =>
    some ((Request.new url).set_body (JVal.obj
      [("type", JVal.str "detach"),
       ("volume_name", JVal.str volume_name),
       ("droplet_id", JVal.num droplet)]))

/-- `Request::<Get, Volume>::attach(droplet)` from `volume_action.rs`:
push `"actions"` onto the URL, set the attach body, transmute. -/
def Request.attach (r : Request .get .volume) (droplet : Nat) :
    Option (Request .create .action) :=
  match r.url.pushSegment VOLUME_ACTIONS_SEGMENT with
  | none => none
  | some u =>
    some ((({ r with url := u } : Request .get .volume).set_body
      (JVal.obj [("type", JVal.str "attach"),
                 ("droplet_id", JVal.num droplet)])).transmute)

/-- `Request::<Get, Volume>::detach(droplet)` from `volume_action.rs`. -/
def Request.detach (r : Request .get .volume) (droplet : Nat) :
    Option (Request .create .action) :=
  match r.url.pushSegment VOLUME_ACTIONS_SEGMENT with
  | none => none
  | some u =>
    some ((({ r with url := u } : Request .get .volume).set_body
      (JVal.obj [("type", JVal.str "detach"),
                 ("droplet_id", JVal.num droplet)])).transmute)

/-- `Request::<Get, Volume>::resize(size)` from `volume_action.rs`. -/
def Request.resize (r : Request .get .volume) (size : Nat) :
    Option (Request .create .action) :=
  match r.url.pushSegment VOLUME_ACTIONS_SEGMENT with
  | none => none
  | some u =>
    some ((({ r with url := u } : Request .get .volume).set_body
      (JVal.obj [("type", JVal.str "resize"),
                 ("size_gigabytes", JVal.num size)])).transmute)

/-- `Request::<Get, Volume>::actions()` from `volume_action.rs`: push
`"actions"`, transmute; no body effect. -/
def Request.actions (r : Request .get .volume) :
    Option (Request .list .vecAction) :=
  match r.url.pushSegment VOLUME_ACTIONS_SEGMENT with
  | none => none
  | some u =>
    some (({ r with url := u } : Request .get .volume).transmute)

/-- `Request::<Get, Volume>::action(id)` from `volume_action.rs`: push
`"actions"` then the decimal string of `id`, transmute; no body effect. -/
def Request.action (r : Request .get .volume) (id : Nat) :
    Option (Request .get .action) :=
  match r.url.pushSegment VOLUME_ACTIONS_SEGMENT with
  | none => none
  | some u =>
    match u.pushSegment (toString id) with
    | none => none
    | some u' =>
      some (({ r with url := u' } : Request .get .volume).transmute)

/-- Modelled from the spec: the URL of a `Request<Get, Volume>` for volume
id X (the `Volume::get` constructor is not in the provided sources; §8's
example gives path `volumes/abc123`, i.e. root path plus `volumes`, X). -/
def volumeUrl (x : String) : Url :=
  { scheme := "https"
    host := "api.digitalocean.com"
    path := ["v2", "volumes", x]
    cannotBeABase := false }

/-- The `DigitalOcean` client from `lib.rs`: a transport handle (opaque to
the core; represented by nothing here, the transport is passed at the
execution boundary) and the API token. -/
structure DigitalOcean where
  token : String
deriving Repr, DecidableEq

/-- The HTTP verb statically bound to each Method tag (spec §3: GET for
List/Get, POST for Create, PUT for Update, DELETE for Delete). -/
def Method.verb : Method → String
  | .list => "GET"
  | .get => "GET"
  | .create => "POST"
  | .update => "PUT"
  | .delete => "DELETE"

/-- The wire request handed to the transport collaborator (§6): verb, URL,
the credential token attached unmodified, and the optional serialized
body. -/
structure HttpRequest where
  verb : String
  url : Url
  authToken : String
  body : Option JVal
deriving Repr

/-- The transport collaborator's answer (§6): a status code and a response
body. -/
structure HttpResponse where
  status : Nat
  body : JVal
deriving Repr

/-- The executor's result (§4.3, §7): either the decoded response payload
or an API-level fault carrying the status and the provider payload. -/
inductive ApiResult where
  | ok : JVal → ApiResult
  | apiError : Nat → JVal → ApiResult
deriving Repr

/-- Modelled from the spec: `Executable::execute` (§4.3; the `request`
module is not in the provided sources): select the verb from the Method
tag, attach the token, send the body, perform one transport call, and on
a non-success status classify the failure. Decoding is modelled as the
identity on the JSON payload. The transport is an explicit argument. -/
def Request.execute (r : Request m v) (d : DigitalOcean)
    (transport : HttpRequest → HttpResponse) : ApiResult :=
  let resp := transport
    { verb := Method.verb m
      url := r.url
      authToken := d.token
      body := r.body }
  if 200 ≤ resp.status ∧ resp.status < 300 then .ok resp.body
  else .apiError resp.status resp.body

/-- `DigitalOcean::execute(&self, request)` from `lib.rs`: delegates to
`request.execute(self)`. -/
def DigitalOcean.execute (d : DigitalOcean) (r : Request m v)
    (transport : HttpRequest → HttpResponse) : ApiResult :=
  r.execute d transport

/-- The URLs reachable inside the library: the root URL and anything
obtained from a reachable URL by a successful path-segment push. -/
inductive DerivedFromRoot : Url → Prop where
  | root : DerivedFromRoot ROOT_URL
  | push (u u' : Url) (s : String) : DerivedFromRoot u →
      u.pushSegment s = some u' → DerivedFromRoot u'

/-- Every URL derived from the root is hierarchical, so a path-segment
push on it always succeeds. -/
theorem derivedFromRoot_not_cannotBeABase (u : Url)
    (h : DerivedFromRoot u) : u.cannotBeABase = false := by
  induction h with
  | root => rfl
  | push v v' s _ hpush ih =>
    unfold Url.pushSegment at hpush
    rw [ih] at hpush
    simp at hpush
    rw [← hpush]

/-- C1: for every Request (any Method/Value pair, any URL, any body
including none) and any Method/Value reinterpretation, `transmute` yields
a Request with the same URL and the same body; it alters no stored data. -/
theorem transmute_preserves_url_and_body
    {m : Method} {v : Value} {m' : Method} {v' : Value} (r : Request m v) :
    (r.transmute : Request m' v').url = r.url ∧
    (r.transmute : Request m' v').body = r.body :=
  ⟨rfl, rfl⟩

/-- C7: `set_body` overwrites, not merges — after `set_body p` then
`set_body q` the stored body is exactly `q` — and repeating `set_body`
with the same payload leaves the same Request as calling it once. -/
theorem set_body_overwrites_and_idempotent
    {m : Method} {v : Value} (r : Request m v) (p q : JVal) :
    ((r.set_body p).set_body q).body = some q ∧
    (r.set_body p).set_body p = r.set_body p :=
  ⟨rfl, rfl⟩

/-- C8: the two public execution entry points agree — for every client,
every Request and every transport, `DigitalOcean::execute(client, r)`
returns exactly what `r.execute(&client)` returns. -/
theorem execute_entry_points_agree {m : Method} {v : Value}
    (d : DigitalOcean) (r : Request m v)
    (transport : HttpRequest → HttpResponse) :
    d.execute r transport = r.execute d transport :=
  rfl

/-- C5: the resource-level `Volume::attach(name, droplet)` and
`Volume::detach(name, droplet)` each build a Create→Action Request whose
URL is the root URL with exactly the single segment `volumes` appended,
and whose body is the attach (resp. detach) object with `type`,
`volume_name` and `droplet_id` fields. -/
theorem volume_attach_detach_correct (name : String) (d : Nat) :
    Volume.attach name d = some
      { url := { scheme := "https", host := "api.digitalocean.com",
                 path := ["v2", "volumes"], cannotBeABase := false },
        body := some (JVal.obj
          [("type", JVal.str "attach"),
           ("volume_name", JVal.str name),
           ("droplet_id", JVal.num d)]) } ∧
    Volume.detach name d = some
      { url := { scheme := "https", host := "api.digitalocean.com",
                 path := ["v2", "volumes"], cannotBeABase := false },
        body := some (JVal.obj
          [("type", JVal.str "detach"),
           ("volume_name", JVal.str name),
           ("droplet_id", JVal.num d)]) } :=
  ⟨rfl, rfl⟩

/-- C2: on a Get→Volume Request for volume id X, `resize(s)` yields a
Create→Action Request whose URL path is exactly
`v2 / volumes / X / actions` (one segment `actions` appended) and whose
body is the object with `type = "resize"` and `size_gigabytes = s`. -/
theorem resize_correct (r : Request .get .volume) (x : String) (s : Nat)
    (h : r.url = volumeUrl x) :
    r.resize s = some
      { url := { scheme := "https", host := "api.digitalocean.com",
                 path := ["v2", "volumes", x, "actions"],
                 cannotBeABase := false },
        body := some (JVal.obj
          [("type", JVal.str "resize"),
           ("size_gigabytes", JVal.num s)]) } := by
  obtain ⟨u, b⟩ := r
  change u = volumeUrl x at h
  subst h
  rfl

/-- Witness for the resize claim at volume id `abc123` and size 100. -/
theorem resize_correct_witness :
    Request.resize ⟨volumeUrl "abc123", none⟩ 100 = some
      { url := { scheme := "https", host := "api.digitalocean.com",
                 path := ["v2", "volumes", "abc123", "actions"],
                 cannotBeABase := false },
        body := some (JVal.obj
          [("type", JVal.str "resize"),
           ("size_gigabytes", JVal.num 100)]) } :=
  resize_correct ⟨volumeUrl "abc123", none⟩ "abc123" 100 rfl

/-- C3: on a Get→Volume Request for volume id X, `action(n)` yields a
Get→Action Request whose URL path is exactly
`v2 / volumes / X / actions / <decimal n>` (segment `actions` then the
decimal string of n, in that order) and whose body is unchanged. -/
theorem action_correct (r : Request .get .volume) (x : String) (n : Nat)
    (h : r.url = volumeUrl x) :
    r.action n = some
      { url := { scheme := "https", host := "api.digitalocean.com",
                 path := ["v2", "volumes", x, "actions", toString n],
                 cannotBeABase := false },
        body := r.body } := by
  obtain ⟨u, b⟩ := r
  change u = volumeUrl x at h
  subst h
  rfl

/-- Witness for the action claim at volume id `abc123` and action id 7:
the path is `volumes/abc123/actions/7` and no body is set. -/
theorem action_correct_witness :
    Request.action ⟨volumeUrl "abc123", none⟩ 7 = some
      { url := { scheme := "https", host := "api.digitalocean.com",
                 path := ["v2", "volumes", "abc123", "actions", "7"],
                 cannotBeABase := false },
        body := none } :=
  action_correct ⟨volumeUrl "abc123", none⟩ "abc123" 7 rfl

/-- C4: on any Get→Volume Request whose URL can accept path segments,
`attach(d)` yields a Create→Action Request with exactly one segment
`actions` appended and body `type = "attach"`, `droplet_id = d`; and
`detach(d)` does the same with `type = "detach"`. -/
theorem attach_detach_correct (r : Request .get .volume) (d : Nat)
    (h : r.url.cannotBeABase = false) :
    r.attach d = some
      { url := { r.url with path := r.url.path ++ ["actions"] },
        body := some (JVal.obj
          [("type", JVal.str "attach"),
           ("droplet_id", JVal.num d)]) } ∧
    r.detach d = some
      { url := { r.url with path := r.url.path ++ ["actions"] },
        body := some (JVal.obj
          [("type", JVal.str "detach"),
           ("droplet_id", JVal.num d)]) } := by
  obtain ⟨u, b⟩ := r
  change u.cannotBeABase = false at h
  constructor <;>
    simp [Request.attach, Request.detach, Url.pushSegment, h,
          Request.set_body, Request.transmute, VOLUME_ACTIONS_SEGMENT]

/-- Witness for the attach/detach claim at volume id `abc123` and droplet
id 42. -/
theorem attach_detach_correct_witness :
    Request.attach ⟨volumeUrl "abc123", none⟩ 42 = some
      { url := { volumeUrl "abc123" with
                 path := (volumeUrl "abc123").path ++ ["actions"] },
        body := some (JVal.obj
          [("type", JVal.str "attach"),
           ("droplet_id", JVal.num 42)]) } ∧
    Request.detach ⟨volumeUrl "abc123", none⟩ 42 = some
      { url := { volumeUrl "abc123" with
                 path := (volumeUrl "abc123").path ++ ["actions"] },
        body := some (JVal.obj
          [("type", JVal.str "detach"),
           ("droplet_id", JVal.num 42)]) } :=
  attach_detach_correct ⟨volumeUrl "abc123", none⟩ 42 rfl

/-- C6: on any Get→Volume Request whose URL can accept path segments,
`actions()` yields a List→Vec<Action> Request with exactly one segment
`actions` appended and the body untouched (no body set by this
operation). -/
theorem actions_correct (r : Request .get .volume)
    (h : r.url.cannotBeABase = false) :
    r.actions = some
      { url := { r.url with path := r.url.path ++ ["actions"] },
        body := r.body } := by
  obtain ⟨u, b⟩ := r
  change u.cannotBeABase = false at h
  simp [Request.actions, Url.pushSegment, h, Request.transmute,
        VOLUME_ACTIONS_SEGMENT]

/-- Witness for the actions claim at volume id `abc123`: one segment
`actions` is appended and no body is set. -/
theorem actions_correct_witness :
    Request.actions ⟨volumeUrl "abc123", none⟩ = some
      { url := { volumeUrl "abc123" with
                 path := (volumeUrl "abc123").path ++ ["actions"] },
        body := none } :=
  actions_correct ⟨volumeUrl "abc123", none⟩ rfl

/-- C9: the fixed root URL string parses successfully (to a hierarchical
URL), and a path-segment push succeeds on every URL derived from that
root, so the panic branches guarded by `STATIC_URL_ERROR` are
unreachable: construction never aborts with a configuration fault. -/
theorem static_url_error_branches_unreachable :
    Url.parse rootUrlString = some ROOT_URL ∧
    ∀ u, DerivedFromRoot u → ∀ s, (u.pushSegment s).isSome := by
  refine ⟨by decide, ?_⟩
  intro u hu s
  simp [Url.pushSegment, derivedFromRoot_not_cannotBeABase u hu]

/-- Witness for the root-URL safety claim: the parse succeeds and the
push of `volumes` performed by `Volume::attach` succeeds on the root. -/
theorem static_url_error_branches_unreachable_witness :
    Url.parse rootUrlString = some ROOT_URL ∧
    (ROOT_URL.pushSegment "volumes").isSome :=
  ⟨static_url_error_branches_unreachable.1,
   static_url_error_branches_unreachable.2 ROOT_URL DerivedFromRoot.root
     "volumes"⟩

/-- C10: each of the five chaining operations on a Get→Volume Request
only appends path segments — the scheme, the host, and every
pre-existing path segment (the `v2` prefix and the volume id included)
are preserved unchanged in the resulting Request's URL. -/
theorem chain_ops_only_append_segments (r : Request .get .volume)
    (d s n : Nat) (h : r.url.cannotBeABase = false) :
    (∃ r', r.attach d = some r' ∧ r'.url.scheme = r.url.scheme ∧
      r'.url.host = r.url.host ∧
      r'.url.path = r.url.path ++ ["actions"]) ∧
    (∃ r', r.detach d = some r' ∧ r'.url.scheme = r.url.scheme ∧
      r'.url.host = r.url.host ∧
      r'.url.path = r.url.path ++ ["actions"]) ∧
    (∃ r', r.resize s = some r' ∧ r'.url.scheme = r.url.scheme ∧
      r'.url.host = r.url.host ∧
      r'.url.path = r.url.path ++ ["actions"]) ∧
    (∃ r', r.actions = some r' ∧ r'.url.scheme = r.url.scheme ∧
      r'.url.host = r.url.host ∧
      r'.url.path = r.url.path ++ ["actions"]) ∧
    (∃ r', r.action n = some r' ∧ r'.url.scheme = r.url.scheme ∧
      r'.url.host = r.url.host ∧
      r'.url.path = r.url.path ++ ["actions", toString n]) := by
  obtain ⟨u, b⟩ := r
  change u.cannotBeABase = false at h
  have ha : Request.attach ⟨u, b⟩ d = some
      ⟨{ u with path := u.path ++ ["actions"] },
       some (JVal.obj [("type", JVal.str "attach"),
                       ("droplet_id", JVal.num d)])⟩ := by
    simp [Request.attach, Url.pushSegment, h, Request.set_body,
          Request.transmute, VOLUME_ACTIONS_SEGMENT]
  have hd : Request.detach ⟨u, b⟩ d = some
      ⟨{ u with path := u.path ++ ["actions"] },
       some (JVal.obj [("type", JVal.str "detach"),
                       ("droplet_id", JVal.num d)])⟩ := by
    simp [Request.detach, Url.pushSegment, h, Request.set_body,
          Request.transmute, VOLUME_ACTIONS_SEGMENT]
  have hr : Request.resize ⟨u, b⟩ s = some
      ⟨{ u with path := u.path ++ ["actions"] },
       some (JVal.obj [("type", JVal.str "resize"),
                       ("size_gigabytes", JVal.num s)])⟩ := by
    simp [Request.resize, Url.pushSegment, h, Request.set_body,
          Request.transmute, VOLUME_ACTIONS_SEGMENT]
  have hl : Request.actions ⟨u, b⟩ = some
      ⟨{ u with path := u.path ++ ["actions"] }, b⟩ := by
    simp [Request.actions, Url.pushSegment, h, Request.transmute,
          VOLUME_ACTIONS_SEGMENT]
  have hn : Request.action ⟨u, b⟩ n = some
      ⟨{ u with path := u.path ++ ["actions"] ++ [toString n] }, b⟩ := by
    simp [Request.action, Url.pushSegment, h, Request.transmute,
          VOLUME_ACTIONS_SEGMENT]
  exact ⟨⟨_, ha, rfl, rfl, rfl⟩, ⟨_, hd, rfl, rfl, rfl⟩,
         ⟨_, hr, rfl, rfl, rfl⟩, ⟨_, hl, rfl, rfl, rfl⟩,
         ⟨_, hn, rfl, rfl, by simp⟩⟩

/-- Witness for the append-only claim at volume id `abc123` with droplet
id 1, size 2 and action id 3. -/
theorem chain_ops_only_append_segments_witness :
    (∃ r', Request.attach ⟨volumeUrl "abc123", none⟩ 1 = some r' ∧
      r'.url.scheme = (volumeUrl "abc123").scheme ∧
      r'.url.host = (volumeUrl "abc123").host ∧
      r'.url.path = (volumeUrl "abc123").path ++ ["actions"]) ∧
    (∃ r', Request.detach ⟨volumeUrl "abc123", none⟩ 1 = some r' ∧
      r'.url.scheme = (volumeUrl "abc123").scheme ∧
      r'.url.host = (volumeUrl "abc123").host ∧
      r'.url.path = (volumeUrl "abc123").path ++ ["actions"]) ∧
    (∃ r', Request.resize ⟨volumeUrl "abc123", none⟩ 2 = some r' ∧
      r'.url.scheme = (volumeUrl "abc123").scheme ∧
      r'.url.host = (volumeUrl "abc123").host ∧
      r'.url.path = (volumeUrl "abc123").path ++ ["actions"]) ∧
    (∃ r', Request.actions ⟨volumeUrl "abc123", none⟩ = some r' ∧
      r'.url.scheme = (volumeUrl "abc123").scheme ∧
      r'.url.host = (volumeUrl "abc123").host ∧
      r'.url.path = (volumeUrl "abc123").path ++ ["actions"]) ∧
    (∃ r', Request.action ⟨volumeUrl "abc123", none⟩ 3 = some r' ∧
      r'.url.scheme = (volumeUrl "abc123").scheme ∧
      r'.url.host = (volumeUrl "abc123").host ∧
      r'.url.path = (volumeUrl "abc123").path ++ ["actions", toString 3]) :=
  chain_ops_only_append_segments ⟨volumeUrl "abc123", none⟩ 1 2 3 rfl
